import Mathlib

/-!
Shallow embedding of mayan/apps/documents/models/document_version_models.py
(the DocumentVersion model of Mayan EDMS) and proofs about its version
pipeline: deletion, orientation fixing, revert, save, checksum/mimetype
update, page-count update, intermediate-file derivation and pre-open hooks.

Modelling conventions:
  * file contents (streams) are byte lists (Bytes);
  * the ORM distinction between in-memory attribute assignment
    (self.mimetype = ...) and persistence (self.save()) is modelled by a
    pair of field records: fields (in memory) and dbFields (the durable
    row); a plain re-save of an existing row copies fields into dbFields;
  * fallible collaborator calls (converter, sniffer, page delete,
    orientation detector) are parameters returning Except PipelineError;
  * Python raise/propagate is the Except.error case, try/except branches
    are matches on it;
  * side-effect order is captured by explicit action traces where a
    claim is about ordering.
-/

namespace MayanDocuments

/-- Byte content of a stored file. -/
abbrev Bytes := List Nat

/-- Errors raised by the collaborators of the pipeline.
invalidOfficeFormat models mayan.apps.converter.exceptions.InvalidOfficeFormat,
pageCountError models PageCountError, and failure covers any other
exception (its code only distinguishes concrete failures in tests). -/
inductive PipelineError where
  | invalidOfficeFormat
  | pageCountError
  | failure (code : Nat)
  deriving Repr, DecidableEq

/-- Character fields of the DocumentVersion row: mimetype, encoding and
checksum (document_version_models.py lines 73-93). -/
structure VersionFields where
  mimetype : String
  encoding : String
  checksum : String
  deriving Repr, DecidableEq

/-- State of one document version. fields are the in-memory attributes,
dbFields the durable row contents, storageFile the binary in the content
store (none when self.file.storage.exists(...) is false), pages the page
numbers of the owned Page rows. -/
structure VersionState where
  fields : VersionFields
  dbFields : VersionFields
  storageFile : Option Bytes
  pages : List Nat
  deriving Repr, DecidableEq

/-- Blank character fields. -/
def blankFields : VersionFields := { mimetype := "", encoding := "", checksum := "" }

/-- Test for presence of the binary in storage: DocumentVersion.exists
(lines 133-140) returns self.file.storage.exists(self.file.name). -/
def VersionState.fileExists (v : VersionState) : Bool := v.storageFile.isSome

/-! ## DocumentVersion.delete (lines 125-131)

The body is:
    for page in self.pages.all(): page.delete()
    self.file.storage.delete(self.file.name)
    return super().delete()
The side effects and their order are modelled as a trace of DeleteAction
values; page.delete is a fallible collaborator and an exception it raises
propagates out of the for loop (there is no try/except around it). -/

/-- Observable side effects of DocumentVersion.delete. -/
inductive DeleteAction where
  | deletePage (pageNumber : Nat)
  | purgeCachePartition
  | deleteStorageFile
  | deleteVersionRow
  deriving Repr, DecidableEq

/-- The for loop over self.pages.all() calling page.delete(). Returns the
actions performed and the propagated exception, if any; when page.delete
raises, the loop stops and later pages are not deleted. -/
def deletePagesLoop (pageDelete : Nat → Except PipelineError Unit) :
    List Nat → List DeleteAction × Option PipelineError
  | [] => ([], none)
  | p :: rest =>
    match pageDelete p with
    | Except.error e => ([], some e)
    | Except.ok _ =>
      let result := deletePagesLoop pageDelete rest
      (DeleteAction.deletePage p :: result.1, result.2)

/-- DocumentVersion.delete: delete every Page, then the binary in storage,
then the row itself (the super().delete() call). An exception from a page
deletion propagates before the storage and row deletions run. -/
def DocumentVersion.delete (pageDelete : Nat → Except PipelineError Unit)
    (v : VersionState) : List DeleteAction × Option PipelineError :=
  match deletePagesLoop pageDelete v.pages with
  | (actions, some e) => (actions, some e)
  | (actions, none) =>
    (actions ++ [DeleteAction.deleteStorageFile, DeleteAction.deleteVersionRow], none)

/-! ## DocumentVersion.fix_orientation (lines 142-149)

    for page in self.pages.all():
        degrees = page.detect_orientation()
        if degrees:
            Transformation.objects.add_for_model(... rotate 360 - degrees)
No try/except: an exception from detect_orientation propagates out of the
loop. The result records which pages had detect_orientation invoked, the
rotation transformations added as (page, 360 - degrees) pairs, and the
propagated exception, if any. -/

/-- Loop body of fix_orientation over the page list. -/
def fixOrientationLoop (detect_orientation : Nat → Except PipelineError Nat) :
    List Nat → List Nat × List (Nat × Nat) × Option PipelineError
  | [] => ([], [], none)
  | p :: rest =>
    match detect_orientation p with
    | Except.error e => ([p], [], some e)
    | Except.ok degrees =>
      let result := fixOrientationLoop detect_orientation rest
      if degrees ≠ 0 then (p :: result.1, (p, 360 - degrees) :: result.2.1, result.2.2)
      else (p :: result.1, result.2.1, result.2.2)

/-- DocumentVersion.fix_orientation applied to the pages of the version. -/
def DocumentVersion.fix_orientation (detect_orientation : Nat → Except PipelineError Nat)
    (v : VersionState) : List Nat × List (Nat × Nat) × Option PipelineError :=
  fixOrientationLoop detect_orientation v.pages

/-! ## DocumentVersion.open (lines 213-227)

    if raw: return self.file.storage.open(self.file.name)
    else:
        result = self.file.storage.open(self.file.name)
        for key in sorted(DocumentVersion._pre_open_hooks):
            result = DocumentVersion._pre_open_hooks[key](
                file_object=result, document_version=self)
        return result
The hook dictionary is modelled as an association list from integer
priority keys to hooks; sorted(dict) is insertion sort of the key list and
dict[key] is association-list lookup. The stream type and the version
type stay abstract, as hooks may wrap the stream in a new object. -/

/-- Keys of the pre-open hook registry in ascending order, the value of
sorted(DocumentVersion._pre_open_hooks). -/
def sortedHookKeys {σ τ : Type} (hooks : List (Nat × (σ → τ → σ))) : List Nat :=
  List.insertionSort (fun a b => a ≤ b) (hooks.map Prod.fst)

/-- Dictionary access DocumentVersion._pre_open_hooks[key] applied to the
current stream and the version; for a key absent from the registry the
stream is returned unchanged (unreachable when iterating the own keys of
the registry). -/
def applyHook {σ τ : Type} (hooks : List (Nat × (σ → τ → σ))) (key : Nat)
    (stream : σ) (self : τ) : σ :=
  match hooks.lookup key with
  | some hook => hook stream self
  | none => stream

/-- DocumentVersion.open: raw returns the storage stream untouched,
otherwise every registered pre-open hook is applied over it in ascending
key order. -/
def DocumentVersion.openVersionFile {σ τ : Type} (hooks : List (Nat × (σ → τ → σ)))
    (self : τ) (raw : Bool) (stored : σ) : σ :=
  if raw then stored
  else (sortedHookKeys hooks).foldl (fun result key => applyHook hooks key result self) stored

/-- Spec-side description of the non-raw open path: sort the registered
hooks by ascending priority key and fold them over the stream, each hook
receiving the current stream and the version and producing the stream
passed to the next. Stated from the words of the specification, to be
compared with DocumentVersion.openVersionFile. -/
def applyHooksAscending {σ τ : Type} (hooks : List (Nat × (σ → τ → σ)))
    (self : τ) (stored : σ) : σ :=
  (List.insertionSort (fun a b => a.1 ≤ b.1) hooks).foldl
    (fun result hook => hook.2 result self) stored

/-! ## DocumentVersion.revert (lines 236-247)

    for version in self.document.versions.filter(timestamp__gt=self.timestamp):
        version.delete()
A sibling version is identified by its id and creation timestamp. The
result is the pair (remaining versions, deleted versions). -/

/-- Identity and creation timestamp of a sibling version of a document. -/
structure VersionMeta where
  id : Nat
  timestamp : Nat
  deriving Repr, DecidableEq

/-- DocumentVersion.revert: delete the sibling versions whose timestamp is
strictly greater than the timestamp of the target version, keeping all
others. -/
def DocumentVersion.revert (self : VersionMeta) (versions : List VersionMeta) :
    List VersionMeta × List VersionMeta :=
  (versions.filter (fun w => decide (¬ self.timestamp < w.timestamp)),
   versions.filter (fun w => decide (self.timestamp < w.timestamp)))

/-! ## DocumentVersion.save (lines 249-304)

    try:
        with transaction.atomic():
            super().save(); post-save hooks; update_checksum; update_mimetype;
            self.save(); update_page_count; fix_orientation; document save
    except Exception as exception:
        logger.error(...); raise
The steps inside the atomic block are modelled as an abstract list of
fallible database transitions; transaction.atomic restores the previous
database state when the body raises, and the except branch logs the error
and re-raises it. -/

/-- Run the pipeline steps of the atomic block in order, stopping at the
first step that raises. -/
def runSteps {DB : Type} (steps : List (DB → Except PipelineError DB)) (db : DB) :
    Except PipelineError DB :=
  match steps with
  | [] => Except.ok db
  | step :: rest =>
    match step db with
    | Except.error e => Except.error e
    | Except.ok db2 => runSteps rest db2

/-- Semantics of with transaction.atomic(): when the body raises, the
database is rolled back to its state at entry and the exception keeps
propagating. -/
def transactionAtomic {DB : Type} (body : DB → Except PipelineError DB) (db : DB) :
    DB × Option PipelineError :=
  match body db with
  | Except.ok db2 => (db2, none)
  | Except.error e => (db, some e)

/-- Outcome of DocumentVersion.save: the database state afterwards, the
exception re-raised to the caller, and whether logger.error ran. -/
structure SaveOutcome (DB : Type) where
  db : DB
  raised : Option PipelineError
  loggedError : Bool
  deriving Repr, DecidableEq

/-- DocumentVersion.save: run the pipeline steps inside one atomic unit;
on any exception the unit rolls back, logger.error runs and the same
exception is re-raised to the caller. -/
def DocumentVersion.save {DB : Type} (steps : List (DB → Except PipelineError DB))
    (db : DB) : SaveOutcome DB :=
  match transactionAtomic (runSteps steps) db with
  | (db2, none) => { db := db2, raised := none, loggedError := false }
  | (db2, some e) => { db := db2, raised := some e, loggedError := true }

/-! ## DocumentVersion.update_checksum (lines 331-341)

    if self.exists():
        source = self.open()
        self.checksum = force_text(document_hash_function(source.read()))
        source.close()
        if save: self.save()
Nothing at all happens when the file is absent from storage. The re-save
of an existing row persists the in-memory fields into the durable row. -/

/-- DocumentVersion.update_checksum over the version state. -/
def DocumentVersion.update_checksum (document_hash_function : Bytes → String)
    (save : Bool) (v : VersionState) : VersionState :=
  match v.storageFile with
  | none => v
  | some content =>
    let v1 := { v with fields := { v.fields with checksum := document_hash_function content } }
    if save then { v1 with dbFields := v1.fields } else v1

/-! ## DocumentVersion.update_mimetype (lines 343-359)

    if self.exists():
        try:
            with self.open() as file_object:
                self.mimetype, self.encoding = get_mimetype(file_object=file_object)
        except Exception:
            self.mimetype = ''
            self.encoding = ''
        finally:
            if save: self.save()
The abstract detector covers the composite of self.open() and
get_mimetype, both of which sit inside the try block; every exception is
caught, so the function itself never raises (second component none). -/

/-- DocumentVersion.update_mimetype over the version state; the second
component is the exception propagated to the caller, always none because
the except clause catches Exception. -/
def DocumentVersion.update_mimetype
    (get_mimetype : Bytes → Except PipelineError (String × String))
    (save : Bool) (v : VersionState) : VersionState × Option PipelineError :=
  match v.storageFile with
  | none => (v, none)
  | some content =>
    let v1 :=
      match get_mimetype content with
      | Except.ok (mime, enc) =>
        { v with fields := { v.fields with mimetype := mime, encoding := enc } }
      | Except.error _ =>
        { v with fields := { v.fields with mimetype := "", encoding := "" } }
    (if save then { v1 with dbFields := v1.fields } else v1, none)

/-! ## DocumentVersion.update_page_count (lines 361-382)

    try:
        with self.open() as file_object:
            converter = converter_class(file_object=file_object, mime_type=self.mimetype)
            detected_pages = converter.get_page_count()
    except PageCountError:
        pass          # comment in the source: use 1 as the total page count
    else:
        with transaction.atomic():
            self.pages.all().delete()
            for page_number in range(detected_pages):
                self.pages.create(page_number=page_number + 1)
        if save: self.save()
        return detected_pages
Note the except branch only passes: the page set is left untouched and
None is returned. Exceptions other than PageCountError propagate. -/

/-- DocumentVersion.update_page_count. get_page_count abstracts the
open-and-count composite; the Option Nat in the result is the Python
return value (none on the PageCountError path). -/
def DocumentVersion.update_page_count (get_page_count : Except PipelineError Nat)
    (save : Bool) (v : VersionState) : Except PipelineError (VersionState × Option Nat) :=
  match get_page_count with
  | Except.error PipelineError.pageCountError => Except.ok (v, none)
  | Except.error e => Except.error e
  | Except.ok detected_pages =>
    let v1 := { v with pages := (List.range detected_pages).map (fun i => i + 1) }
    let v2 := if save then { v1 with dbFields := v1.fields } else v1
    Except.ok (v2, some detected_pages)

/-! ## DocumentVersion.get_intermidiate_file (lines 159-182)

    cache_file = self.cache_partition.get_file(filename='intermediate_file')
    if cache_file: return cache_file.open()
    else:
        try:
            converter = converter_class(file_object=self.open())
            pdf_file_object = converter.to_pdf()
            with self.cache_partition.create_file(...) as file_object:
                for chunk in pdf_file_object: file_object.write(chunk)
            return self.cache_partition.get_file(...).open()
        except InvalidOfficeFormat:
            return self.open()
        except Exception as exception:
            logger.error(...); raise
The cached argument is the intermediate_file entry of the cache partition
of the version, opened is the stream self.open() yields; the result pairs
the cache entry afterwards with the returned stream. -/

/-- DocumentVersion.get_intermidiate_file. -/
def DocumentVersion.get_intermidiate_file (to_pdf : Bytes → Except PipelineError Bytes)
    (opened : Bytes) (cached : Option Bytes) :
    Except PipelineError (Option Bytes × Bytes) :=
  match cached with
  | some cache_file => Except.ok (some cache_file, cache_file)
  | none =>
    match to_pdf opened with
    | Except.ok pdf => Except.ok (some pdf, pdf)
    | Except.error PipelineError.invalidOfficeFormat => Except.ok (none, opened)
    | Except.error e => Except.error e

/-! ## Concrete states and collaborators used in counterexamples and
witnesses. -/

/-- A version with two pages and a stored binary. -/
def twoPageVersion : VersionState :=
  { fields := blankFields, dbFields := blankFields,
    storageFile := some [7, 7], pages := [1, 2] }

/-- A freshly persisted version: no pages yet, binary stored. -/
def freshVersion : VersionState :=
  { fields := blankFields, dbFields := blankFields,
    storageFile := some [3], pages := [] }

/-- A version whose binary is missing from the content store. -/
def missingFileVersion : VersionState :=
  { fields := { mimetype := "text/plain", encoding := "us-ascii", checksum := "abc" },
    dbFields := { mimetype := "text/plain", encoding := "us-ascii", checksum := "abc" },
    storageFile := none, pages := [1] }

/-- A version with a stale page set, page number 9. -/
def stalePageVersion : VersionState :=
  { fields := blankFields, dbFields := blankFields,
    storageFile := some [4], pages := [9] }

/-- Page deletion that raises on page 1 and succeeds elsewhere. -/
def failOnPageOneDelete : Nat → Except PipelineError Unit :=
  fun p => if p = 1 then Except.error (PipelineError.failure 0) else Except.ok ()

/-- Page deletion that always succeeds. -/
def alwaysOkPageDelete : Nat → Except PipelineError Unit :=
  fun _ => Except.ok ()

/-- Orientation detection that raises on page 1 and reports 90 degrees on
every other page. -/
def failOnPageOneDetect : Nat → Except PipelineError Nat :=
  fun p => if p = 1 then Except.error (PipelineError.failure 1) else Except.ok 90

/-- Two pre-open hooks registered out of key order, over integer-list
streams: key 2 appends 2, key 1 appends 1. -/
def twoHooks : List (Nat × (List Nat → Unit → List Nat)) :=
  [(2, fun s _ => s ++ [2]), (1, fun s _ => s ++ [1])]

/-- A pipeline step over a Nat database that succeeds and increments. -/
def stepIncrement : Nat → Except PipelineError Nat :=
  fun db => Except.ok (db + 1)

/-- A pipeline step over a Nat database that raises. -/
def stepRaise : Nat → Except PipelineError Nat :=
  fun _ => Except.error (PipelineError.failure 2)

/-- A mimetype detector that always raises. -/
def failingDetector : Bytes → Except PipelineError (String × String) :=
  fun _ => Except.error (PipelineError.failure 3)

/-- A hash function over bytes used in witnesses. -/
def lengthHash : Bytes → String :=
  fun content => toString content.length

/-- A converter whose to_pdf raises InvalidOfficeFormat on every input. -/
def invalidOfficeConverter : Bytes → Except PipelineError Bytes :=
  fun _ => Except.error PipelineError.invalidOfficeFormat

/-- A revert target with timestamp 5. -/
def revertTarget : VersionMeta := { id := 1, timestamp := 5 }

/-- Sibling versions around the revert target: one earlier, the target
itself, one later. -/
def revertSiblings : List VersionMeta :=
  [{ id := 0, timestamp := 3 }, { id := 1, timestamp := 5 }, { id := 2, timestamp := 7 }]

/-! ## Helper lemmas -/

/-- When every page deletion succeeds, the loop deletes each page in list
order and propagates nothing. -/
theorem deletePagesLoop_all_ok (pageDelete : Nat → Except PipelineError Unit) :
    ∀ (pages : List Nat), (∀ p ∈ pages, pageDelete p = Except.ok ()) →
      deletePagesLoop pageDelete pages = (pages.map DeleteAction.deletePage, none) := by
  intro pages
  induction pages with
  | nil => intro _; rfl
  | cons p rest ih =>
    intro h
    have hp : pageDelete p = Except.ok () := h p (List.mem_cons_self p rest)
    have hrest := ih (fun q hq => h q (List.mem_cons_of_mem p hq))
    simp [deletePagesLoop, hp, hrest]

/-- Every action the page-deletion loop performs is a page deletion. -/
theorem deletePagesLoop_actions_are_page_deletes
    (pageDelete : Nat → Except PipelineError Unit) :
    ∀ (pages : List Nat) (a : DeleteAction), a ∈ (deletePagesLoop pageDelete pages).1 →
      ∃ n, a = DeleteAction.deletePage n := by
  intro pages
  induction pages with
  | nil => intro a ha; simp [deletePagesLoop] at ha
  | cons p rest ih =>
    intro a ha
    simp only [deletePagesLoop] at ha
    cases hpd : pageDelete p with
    | error e => rw [hpd] at ha; simp at ha
    | ok u =>
      rw [hpd] at ha
      simp at ha
      rcases ha with h1 | h2
      · exact ⟨p, h1⟩
      · exact ih a h2

/-- Appending step lists composes runSteps sequentially. -/
theorem runSteps_append {DB : Type} (l1 l2 : List (DB → Except PipelineError DB)) :
    ∀ (db : DB), runSteps (l1 ++ l2) db =
      match runSteps l1 db with
      | Except.ok db2 => runSteps l2 db2
      | Except.error e => Except.error e := by
  induction l1 with
  | nil => intro db; rfl
  | cons f l1 ih =>
    intro db
    simp only [List.cons_append, runSteps]
    cases f db with
    | error e => rfl
    | ok db2 => exact ih db2

/-- The orientation loop on a page list whose prefix detects fine and then
hits a failing page: the prefix and the failing page are the only pages
checked and the exception propagates. -/
theorem fixOrientationLoop_aborts_at_failure
    (detect_orientation : Nat → Except PipelineError Nat) (p : Nat)
    (post : List Nat) (e : PipelineError)
    (hp : detect_orientation p = Except.error e) :
    ∀ (pre : List Nat), (∀ q ∈ pre, ∃ d, detect_orientation q = Except.ok d) →
      (fixOrientationLoop detect_orientation (pre ++ p :: post)).1 = pre ++ [p] ∧
      (fixOrientationLoop detect_orientation (pre ++ p :: post)).2.2 = some e := by
  intro pre
  induction pre with
  | nil => intro _; simp [fixOrientationLoop, hp]
  | cons q pre ih =>
    intro hpre
    obtain ⟨d, hd⟩ := hpre q (List.mem_cons_self q pre)
    obtain ⟨ih1, ihe⟩ := ih (fun r hr => hpre r (List.mem_cons_of_mem q hr))
    by_cases hdz : d = 0
    · simp [fixOrientationLoop, hd, hdz, ih1, ihe]
    · simp [fixOrientationLoop, hd, hdz, ih1, ihe]

/-- Membership in the freshly created page-number list 1..n. -/
theorem mem_freshPageNumbers (n m : Nat) :
    m ∈ (List.range n).map (fun i => i + 1) ↔ 1 ≤ m ∧ m ≤ n := by
  simp only [List.mem_map, List.mem_range]
  constructor
  · rintro ⟨i, hi, rfl⟩
    omega
  · intro hm
    exact ⟨m - 1, by omega, by omega⟩

/-- The freshly created page-number list 1..n has no duplicates. -/
theorem nodup_freshPageNumbers (n : Nat) :
    ((List.range n).map (fun i => i + 1)).Nodup :=
  (List.nodup_range n).map (fun _ _ hab => Nat.add_right_cancel hab)

/-- Mapping first components commutes with ordered insertion when the
order only inspects first components. -/
theorem map_fst_orderedInsert {σ τ : Type} (p : Nat × (σ → τ → σ)) :
    ∀ (l : List (Nat × (σ → τ → σ))),
      (List.orderedInsert (fun a b => a.1 ≤ b.1) p l).map Prod.fst =
        List.orderedInsert (fun a b => a ≤ b) p.1 (l.map Prod.fst) := by
  intro l
  induction l with
  | nil => rfl
  | cons q l ih =>
    simp only [List.orderedInsert, List.map]
    by_cases h : p.1 ≤ q.1
    · simp [h]
    · simp [h, ih]

/-- Mapping first components commutes with insertion sort by first
component. -/
theorem map_fst_insertionSortPairs {σ τ : Type} :
    ∀ (l : List (Nat × (σ → τ → σ))),
      (List.insertionSort (fun a b => a.1 ≤ b.1) l).map Prod.fst =
        List.insertionSort (fun a b => a ≤ b) (l.map Prod.fst) := by
  intro l
  induction l with
  | nil => rfl
  | cons p l ih =>
    simp only [List.insertionSort, List.map]
    rw [map_fst_orderedInsert, ih]

/-- In a registry with pairwise distinct keys, lookup of the key of a
member returns its hook. -/
theorem lookup_eq_of_mem_nodupKeys {σ τ : Type} (p : Nat × (σ → τ → σ)) :
    ∀ (hooks : List (Nat × (σ → τ → σ))), (hooks.map Prod.fst).Nodup → p ∈ hooks →
      hooks.lookup p.1 = some p.2 := by
  intro hooks
  induction hooks with
  | nil => intro _ hp; cases hp
  | cons q hooks ih =>
    intro hnd hp
    obtain ⟨hqk, hnd2⟩ := List.nodup_cons.mp hnd
    rcases List.mem_cons.mp hp with heq | hmem
    · subst heq
      simp [List.lookup]
    · have hne : (p.1 == q.1) = false := by
        rw [beq_eq_false_iff_ne]
        intro h
        exact hqk (h ▸ List.mem_map_of_mem Prod.fst hmem)
      simp only [List.lookup, hne]
      exact ih hnd2 hmem

/-- Folding the lookup of each key equals folding the hooks themselves,
whenever every listed pair looks up to its own hook. -/
theorem foldl_applyHook_eq_foldl_pairs {σ τ : Type}
    (hooks : List (Nat × (σ → τ → σ))) (self : τ) :
    ∀ (l : List (Nat × (σ → τ → σ))) (s : σ),
      (∀ p ∈ l, hooks.lookup p.1 = some p.2) →
      (l.map Prod.fst).foldl (fun result key => applyHook hooks key result self) s =
        l.foldl (fun result p => p.2 result self) s := by
  intro l
  induction l with
  | nil => intro s _; rfl
  | cons p l ih =>
    intro s h
    have hp : hooks.lookup p.1 = some p.2 := h p (List.mem_cons_self p l)
    simp only [List.map, List.foldl]
    rw [show applyHook hooks p.1 s self = p.2 s self from by simp [applyHook, hp]]
    exact ih _ (fun q hq => h q (List.mem_cons_of_mem p hq))

/-! ## Claim C1 -/

/-- C1, code evaluated at the failing input: when the page-count call of
the page deriver raises PageCountError, update_page_count swallows the
error and does not fail the ingestion, but the page set of a fresh version
stays empty (zero pages), not the single page numbered 1 that the claim
and the comment in the source promise. -/
theorem update_page_count_unpaginatable_leaves_page_set_unchanged :
    DocumentVersion.update_page_count (Except.error PipelineError.pageCountError)
        true freshVersion = Except.ok (freshVersion, none) ∧
    freshVersion.pages.length = 0 :=
  ⟨rfl, rfl⟩

/-! ## Claim C2 -/

/-- C2 counterexample: with a version of two pages whose first page
deletion raises, DocumentVersion.delete propagates the exception before
deleting the second page, the binary or the row, so a page failure does
abort the rest of the deletion; moreover even a fully successful deletion
never purges the cache partition. -/
theorem delete_claim_counterexample :
    DocumentVersion.delete failOnPageOneDelete twoPageVersion =
      ([], some (PipelineError.failure 0)) ∧
    DeleteAction.purgeCachePartition ∉
      (DocumentVersion.delete alwaysOkPageDelete twoPageVersion).1 := by
  decide

/-- C2 amended: delete removes every Page in list order, then the binary
from the content store, then the version row, and never purges the cache
partition; a failure while deleting a Page aborts the remaining deletion
steps (the storage and row deletions do not run). -/
theorem delete_order_and_abort_semantics
    (pageDelete : Nat → Except PipelineError Unit) (v : VersionState) :
    ((∀ p ∈ v.pages, pageDelete p = Except.ok ()) →
      DocumentVersion.delete pageDelete v =
        (v.pages.map DeleteAction.deletePage ++
          [DeleteAction.deleteStorageFile, DeleteAction.deleteVersionRow], none)) ∧
    DeleteAction.purgeCachePartition ∉ (DocumentVersion.delete pageDelete v).1 ∧
    (∀ e, (DocumentVersion.delete pageDelete v).2 = some e →
      DeleteAction.deleteStorageFile ∉ (DocumentVersion.delete pageDelete v).1 ∧
      DeleteAction.deleteVersionRow ∉ (DocumentVersion.delete pageDelete v).1) := by
  have hpages := deletePagesLoop_actions_are_page_deletes pageDelete v.pages
  refine ⟨fun hok => ?_, ?_, fun e he => ?_⟩
  · simp [DocumentVersion.delete, deletePagesLoop_all_ok pageDelete v.pages hok]
  · unfold DocumentVersion.delete
    rcases hloop : deletePagesLoop pageDelete v.pages with ⟨actions, err⟩
    rw [hloop] at hpages
    cases err with
    | some e =>
      intro hmem
      obtain ⟨n, hn⟩ := hpages _ hmem
      exact DeleteAction.noConfusion hn
    | none =>
      intro hmem
      rcases List.mem_append.mp hmem with hmem2 | hmem2
      · obtain ⟨n, hn⟩ := hpages _ hmem2
        exact DeleteAction.noConfusion hn
      · simp at hmem2
  · unfold DocumentVersion.delete at he ⊢
    rcases hloop : deletePagesLoop pageDelete v.pages with ⟨actions, err⟩
    rw [hloop] at hpages he
    cases err with
    | some e2 =>
      constructor
      · intro hmem
        obtain ⟨n, hn⟩ := hpages _ hmem
        exact DeleteAction.noConfusion hn
      · intro hmem
        obtain ⟨n, hn⟩ := hpages _ hmem
        exact DeleteAction.noConfusion hn
    | none => simp at he

/-- C2 amended, witness at a concrete version with two pages and an
always-succeeding page deletion. -/
theorem delete_order_witness :
    ((∀ p ∈ twoPageVersion.pages, alwaysOkPageDelete p = Except.ok ()) →
      DocumentVersion.delete alwaysOkPageDelete twoPageVersion =
        (twoPageVersion.pages.map DeleteAction.deletePage ++
          [DeleteAction.deleteStorageFile, DeleteAction.deleteVersionRow], none)) ∧
    DeleteAction.purgeCachePartition ∉
      (DocumentVersion.delete alwaysOkPageDelete twoPageVersion).1 ∧
    (∀ e, (DocumentVersion.delete alwaysOkPageDelete twoPageVersion).2 = some e →
      DeleteAction.deleteStorageFile ∉
        (DocumentVersion.delete alwaysOkPageDelete twoPageVersion).1 ∧
      DeleteAction.deleteVersionRow ∉
        (DocumentVersion.delete alwaysOkPageDelete twoPageVersion).1) :=
  delete_order_and_abort_semantics alwaysOkPageDelete twoPageVersion

/-! ## Claim C3 -/

/-- C3 counterexample: on a version with pages 1 and 2 whose orientation
detection raises at page 1, fix_orientation checks only page 1, adds no
transformation, and propagates the exception; page 2 never gets its
orientation checked, so one failing page does abort the remaining pages. -/
theorem fix_orientation_claim_counterexample :
    DocumentVersion.fix_orientation failOnPageOneDetect twoPageVersion =
      ([1], [], some (PipelineError.failure 1)) ∧
    2 ∉ (DocumentVersion.fix_orientation failOnPageOneDetect twoPageVersion).1 := by
  decide

/-- C3 amended: when orientation detection succeeds on a prefix of the
page list and raises at page p, fix_orientation checks exactly the prefix
and p, and the exception propagates, so the remaining pages are not
processed and the ingestion sees the error. -/
theorem fix_orientation_failure_aborts_remaining
    (detect_orientation : Nat → Except PipelineError Nat) (v : VersionState)
    (pre : List Nat) (p : Nat) (post : List Nat) (e : PipelineError)
    (hv : v.pages = pre ++ p :: post)
    (hpre : ∀ q ∈ pre, ∃ d, detect_orientation q = Except.ok d)
    (hp : detect_orientation p = Except.error e) :
    (DocumentVersion.fix_orientation detect_orientation v).1 = pre ++ [p] ∧
    (DocumentVersion.fix_orientation detect_orientation v).2.2 = some e := by
  unfold DocumentVersion.fix_orientation
  rw [hv]
  exact fixOrientationLoop_aborts_at_failure detect_orientation p post e hp pre hpre

/-- C3 amended, witness: empty successful prefix, failing page 1,
unprocessed remainder page 2. -/
theorem fix_orientation_abort_witness :
    (DocumentVersion.fix_orientation failOnPageOneDetect twoPageVersion).1 = [] ++ [1] ∧
    (DocumentVersion.fix_orientation failOnPageOneDetect twoPageVersion).2.2 =
      some (PipelineError.failure 1) :=
  fix_orientation_failure_aborts_remaining failOnPageOneDetect twoPageVersion [] 1 [2]
    (PipelineError.failure 1) rfl (by simp) rfl

/-! ## Claim C4 -/

/-- C4: revert deletes exactly the sibling versions whose timestamp is
strictly greater than the timestamp of the target, keeps every version
with a smaller or equal timestamp, and the target itself survives. -/
theorem revert_deletes_exactly_strictly_later_versions (self : VersionMeta)
    (versions : List VersionMeta) (hmem : self ∈ versions) :
    (∀ w, w ∈ (DocumentVersion.revert self versions).2 ↔
      w ∈ versions ∧ self.timestamp < w.timestamp) ∧
    (∀ w ∈ versions, w.timestamp ≤ self.timestamp →
      w ∈ (DocumentVersion.revert self versions).1) ∧
    self ∈ (DocumentVersion.revert self versions).1 := by
  refine ⟨fun w => ?_, fun w hw hle => ?_, ?_⟩
  · simp [DocumentVersion.revert, List.mem_filter]
  · simp only [DocumentVersion.revert, List.mem_filter, decide_eq_true_eq, Nat.not_lt]
    exact ⟨hw, hle⟩
  · simp only [DocumentVersion.revert, List.mem_filter, decide_eq_true_eq, Nat.not_lt]
    exact ⟨hmem, Nat.le_refl _⟩

/-- C4 witness at a document with versions of timestamps 3, 5 and 7,
reverting to the one with timestamp 5. -/
theorem revert_witness :
    (∀ w, w ∈ (DocumentVersion.revert revertTarget revertSiblings).2 ↔
      w ∈ revertSiblings ∧ revertTarget.timestamp < w.timestamp) ∧
    (∀ w ∈ revertSiblings, w.timestamp ≤ revertTarget.timestamp →
      w ∈ (DocumentVersion.revert revertTarget revertSiblings).1) ∧
    revertTarget ∈ (DocumentVersion.revert revertTarget revertSiblings).1 :=
  revert_deletes_exactly_strictly_later_versions revertTarget revertSiblings (by decide)

/-! ## Claim C5 -/

/-- C5: when any step of the save pipeline raises, even after earlier
steps succeeded, the whole atomic unit rolls back to the database state at
entry (no partial version row stays durable), logger.error runs and the
same exception is re-raised to the caller, not swallowed or retried. -/
theorem save_aborts_rolls_back_logs_and_reraises {DB : Type}
    (pre post : List (DB → Except PipelineError DB))
    (step : DB → Except PipelineError DB) (db dbMid : DB) (e : PipelineError)
    (hpre : runSteps pre db = Except.ok dbMid)
    (hstep : step dbMid = Except.error e) :
    DocumentVersion.save (pre ++ step :: post) db =
      { db := db, raised := some e, loggedError := true } := by
  have h : runSteps (pre ++ step :: post) db = Except.error e := by
    rw [runSteps_append]
    rw [hpre]
    simp [runSteps, hstep]
  simp [DocumentVersion.save, transactionAtomic, h]

/-- C5 witness: a pipeline whose first step persists an increment and
whose second step raises, starting from database state 0. -/
theorem save_abort_witness :
    DocumentVersion.save ([stepIncrement] ++ stepRaise :: []) 0 =
      { db := 0, raised := some (PipelineError.failure 2), loggedError := true } :=
  save_aborts_rolls_back_logs_and_reraises [stepIncrement] [] stepRaise 0 1
    (PipelineError.failure 2) rfl rfl

/-! ## Claim C6 -/

/-- C6: when the binary exists in storage and the composite of open and
the mimetype sniffer raises, update_mimetype with save set assigns the
empty string to both mimetype and encoding, persists those blank values
into the durable row, and raises nothing, so version finalization can
proceed. -/
theorem update_mimetype_soft_fails_to_blank_and_persists
    (get_mimetype : Bytes → Except PipelineError (String × String))
    (v : VersionState) (content : Bytes) (e : PipelineError)
    (hex : v.storageFile = some content)
    (hfail : get_mimetype content = Except.error e) :
    DocumentVersion.update_mimetype get_mimetype true v =
      ({ v with fields := { v.fields with mimetype := "", encoding := "" },
                dbFields := { v.fields with mimetype := "", encoding := "" } }, none) := by
  simp [DocumentVersion.update_mimetype, hex, hfail]

/-- C6 witness: a two-page version with a stored binary and a detector
that always raises. -/
theorem update_mimetype_soft_fail_witness :
    DocumentVersion.update_mimetype failingDetector true twoPageVersion =
      ({ twoPageVersion with
          fields := { twoPageVersion.fields with mimetype := "", encoding := "" },
          dbFields := { twoPageVersion.fields with mimetype := "", encoding := "" } },
        none) :=
  update_mimetype_soft_fails_to_blank_and_persists failingDetector twoPageVersion [7, 7]
    (PipelineError.failure 3) rfl rfl

/-! ## Claim C7 -/

/-- C7: whenever the page deriver reports a count n, update_page_count
replaces the whole page set in one step by the pages numbered exactly
1..n: the new page numbers are contiguous from 1, duplicate free, and no
stale page number above n survives the replacement. -/
theorem update_page_count_replaces_page_set
    (get_page_count : Except PipelineError Nat) (save : Bool) (v : VersionState)
    (n : Nat) (h : get_page_count = Except.ok n) :
    ∃ v2, DocumentVersion.update_page_count get_page_count save v =
        Except.ok (v2, some n) ∧
      v2.pages = (List.range n).map (fun i => i + 1) ∧
      v2.pages.Nodup ∧
      (∀ m, m ∈ v2.pages ↔ 1 ≤ m ∧ m ≤ n) ∧
      (∀ p ∈ v.pages, n < p → p ∉ v2.pages) := by
  subst h
  cases save with
  | false =>
    refine ⟨_, rfl, rfl, nodup_freshPageNumbers n, fun m => mem_freshPageNumbers n m,
      fun p _ hnp hmem => ?_⟩
    have := (mem_freshPageNumbers n p).mp hmem
    omega
  | true =>
    refine ⟨_, rfl, rfl, nodup_freshPageNumbers n, fun m => mem_freshPageNumbers n m,
      fun p _ hnp hmem => ?_⟩
    have := (mem_freshPageNumbers n p).mp hmem
    omega

/-- C7 witness: a version holding a stale page numbered 9 recomputed to a
page count of 2. -/
theorem update_page_count_replace_witness :
    ∃ v2, DocumentVersion.update_page_count (Except.ok 2) false stalePageVersion =
        Except.ok (v2, some 2) ∧
      v2.pages = (List.range 2).map (fun i => i + 1) ∧
      v2.pages.Nodup ∧
      (∀ m, m ∈ v2.pages ↔ 1 ≤ m ∧ m ≤ 2) ∧
      (∀ p ∈ stalePageVersion.pages, 2 < p → p ∉ v2.pages) :=
  update_page_count_replaces_page_set (Except.ok 2) false stalePageVersion 2 rfl

/-! ## Claim C8 -/

/-- C8: when the intermediate file is not cached and the converter raises
InvalidOfficeFormat, get_intermidiate_file returns the stream of the
original binary unchanged, raises nothing and caches nothing. -/
theorem get_intermidiate_file_falls_back_on_invalid_office_format
    (to_pdf : Bytes → Except PipelineError Bytes) (opened : Bytes)
    (h : to_pdf opened = Except.error PipelineError.invalidOfficeFormat) :
    DocumentVersion.get_intermidiate_file to_pdf opened none =
      Except.ok (none, opened) := by
  simp [DocumentVersion.get_intermidiate_file, h]

/-- C8 witness: a concrete binary with a converter that always raises
InvalidOfficeFormat. -/
theorem get_intermidiate_file_fallback_witness :
    DocumentVersion.get_intermidiate_file invalidOfficeConverter [9, 9] none =
      Except.ok (none, [9, 9]) :=
  get_intermidiate_file_falls_back_on_invalid_office_format invalidOfficeConverter
    [9, 9] rfl

/-! ## Claim C9 -/

/-- C9: a raw open returns the storage stream with no hooks applied; a
non-raw open applies every registered pre-open hook in ascending priority
key order, each hook receiving the current stream and the version and
producing the stream passed to the next, which is exactly the spec-side
applyHooksAscending; the sorted registry is a permutation of the
registered hooks with ascending keys. -/
theorem open_applies_pre_open_hooks_in_ascending_key_order {σ τ : Type}
    (hooks : List (Nat × (σ → τ → σ))) (self : τ) (stored : σ)
    (hnd : (hooks.map Prod.fst).Nodup) :
    DocumentVersion.openVersionFile hooks self true stored = stored ∧
    DocumentVersion.openVersionFile hooks self false stored =
      applyHooksAscending hooks self stored ∧
    List.Sorted (fun a b => a ≤ b)
      ((List.insertionSort (fun a b => a.1 ≤ b.1) hooks).map Prod.fst) ∧
    (List.insertionSort (fun a b => a.1 ≤ b.1) hooks).Perm hooks := by
  refine ⟨rfl, ?_, ?_, List.perm_insertionSort _ hooks⟩
  · have hopen : DocumentVersion.openVersionFile hooks self false stored =
        (sortedHookKeys hooks).foldl
          (fun result key => applyHook hooks key result self) stored := rfl
    have hkeys : sortedHookKeys hooks =
        (List.insertionSort (fun a b => a.1 ≤ b.1) hooks).map Prod.fst := by
      rw [map_fst_insertionSortPairs]
      rfl
    rw [hopen, hkeys]
    exact foldl_applyHook_eq_foldl_pairs hooks self _ stored
      (fun p hp => lookup_eq_of_mem_nodupKeys p hooks hnd
        ((List.perm_insertionSort _ hooks).mem_iff.mp hp))
  · rw [map_fst_insertionSortPairs]
    exact List.sorted_insertionSort _ _

/-- C9 witness: two hooks registered out of key order over integer-list
streams. -/
theorem open_hooks_witness :
    DocumentVersion.openVersionFile twoHooks () true [0] = [0] ∧
    DocumentVersion.openVersionFile twoHooks () false [0] =
      applyHooksAscending twoHooks () [0] ∧
    List.Sorted (fun a b => a ≤ b)
      ((List.insertionSort (fun a b => a.1 ≤ b.1) twoHooks).map Prod.fst) ∧
    (List.insertionSort (fun a b => a.1 ≤ b.1) twoHooks).Perm twoHooks :=
  open_applies_pre_open_hooks_in_ascending_key_order twoHooks () [0] (by decide)

/-! ## Claim C10 -/

/-- C10: when the binary is absent from the content store, update_checksum
and update_mimetype are complete no-ops for any save flag: the version
state, both in memory and in the durable row, stays exactly as it was, no
save is performed and nothing is raised. -/
theorem update_checksum_and_mimetype_noop_when_file_missing
    (document_hash_function : Bytes → String)
    (get_mimetype : Bytes → Except PipelineError (String × String))
    (save : Bool) (v : VersionState) (hmissing : v.storageFile = none) :
    DocumentVersion.update_checksum document_hash_function save v = v ∧
    DocumentVersion.update_mimetype get_mimetype save v = (v, none) := by
  constructor <;>
    simp [DocumentVersion.update_checksum, DocumentVersion.update_mimetype, hmissing]

/-- C10 witness: a version without a stored binary, called with the save
flag set. -/
theorem update_noop_missing_file_witness :
    DocumentVersion.update_checksum lengthHash true missingFileVersion =
      missingFileVersion ∧
    DocumentVersion.update_mimetype failingDetector true missingFileVersion =
      (missingFileVersion, none) :=
  update_checksum_and_mimetype_noop_when_file_missing lengthHash failingDetector true
    missingFileVersion rfl

end MayanDocuments
